import Mathlib

/-!
# FitTrack Pro — verification of the goal-derivation and nutrition-accounting engine

Shallow embedding of the core arithmetic of `src/main.py` (a Streamlit fitness
dashboard).  Python floats are modelled by exact rationals `ℚ`; Python's
built-in `round` (round-half-to-even) is modelled by `pyRound`.  Dictionaries
with `.get` defaults are modelled by association lists with `List.lookup`.
-/

namespace FitTrack

/-- Python's built-in `round` on a rational: round half to even (banker's
rounding).  `round(2.5) = 2`, `round(3.5) = 4`, `round(1436.8) = 1437`. -/
def pyRound (q : ℚ) : ℤ :=
  if q - ⌊q⌋ < 1/2 then ⌊q⌋
  else if 1/2 < q - ⌊q⌋ then ⌊q⌋ + 1
  else if ⌊q⌋ % 2 = 0 then ⌊q⌋ else ⌊q⌋ + 1

/-- MET coefficients table from `calculate_calories_burned` (main.py:580-599),
18 named activities. -/
def met_values : List (String × ℚ) :=
  [ ("Walking (slow)", 5/2)
  , ("Walking (moderate)", 7/2)
  , ("Walking (fast)", 9/2)
  , ("Running (slow)", 6)
  , ("Running (moderate)", 8)
  , ("Running (fast)", 11)
  , ("Cycling (light)", 4)
  , ("Cycling (moderate)", 6)
  , ("Cycling (intense)", 10)
  , ("Swimming", 6)
  , ("Yoga", 5/2)
  , ("Weight Training", 7/2)
  , ("HIIT", 8)
  , ("Dancing", 9/2)
  , ("Sports (moderate)", 6)
  , ("Sports (intense)", 8)
  , ("Household chores", 3)
  , ("Gardening", 4) ]

/-- `met_values.get(activity, 3.5)` from main.py:601. -/
def metOf (activity : String) : ℚ :=
  (met_values.lookup activity).getD (7/2)

/-- `calculate_calories_burned` (main.py:577-603):
`round((met * weight_kg * duration_min) / 60)`. -/
def calculate_calories_burned (activity : String) (duration_min weight_kg : ℚ) : ℤ :=
  pyRound (metOf activity * weight_kg * duration_min / 60)

/-- `calculate_bmr` (main.py:605-611), Mifflin-St Jeor equation. -/
def calculate_bmr (weight_kg height_cm age : ℚ) (gender : String) : ℚ :=
  if gender = "Male" then
    10 * weight_kg + (25/4) * height_cm - 5 * age + 5
  else
    10 * weight_kg + (25/4) * height_cm - 5 * age - 161

/-- Activity multiplier table from `calculate_tdee` (main.py:615-621). -/
def activity_multipliers : List (String × ℚ) :=
  [ ("Sedentary", 6/5)
  , ("Lightly Active", 11/8)
  , ("Moderately Active", 31/20)
  , ("Very Active", 69/40)
  , ("Extra Active", 19/10) ]

/-- `calculate_tdee` (main.py:613-622):
`bmr * activity_multipliers.get(activity_level, 1.2)`. -/
def calculate_tdee (bmr : ℚ) (activity_level : String) : ℚ :=
  bmr * (activity_multipliers.lookup activity_level).getD (6/5)

/-- `calculate_bmi` (main.py:624-629): `None` when `height_cm <= 0`, else
`weight_kg / (height_cm/100)**2`. -/
def calculate_bmi (weight_kg height_cm : ℚ) : Option ℚ :=
  if height_cm ≤ 0 then none
  else some (weight_kg / (height_cm / 100) ^ 2)

/-- `get_bmi_category` (main.py:631-640); the source also returns a coloured
emoji tag alongside the label, irrelevant to any arithmetic and omitted here. -/
def get_bmi_category (bmi : ℚ) : String :=
  if bmi < 37/2 then "Underweight"
  else if bmi < 25 then "Normal weight"
  else if bmi < 30 then "Overweight"
  else "Obese"

/-- `st.session_state.user_profile` (main.py:671-680): the fields consumed by
the goal recalculation on profile update (the `name` field plays no role in
any arithmetic). -/
structure UserProfile where
  weight_kg : ℚ
  height_cm : ℚ
  age : ℚ
  gender : String
  activity_level : String
  goal : String
deriving DecidableEq, Repr

/-- `st.session_state.daily_goals` (main.py:682-690). -/
structure DailyGoals where
  calories : ℤ
  protein : ℤ
  carbs : ℤ
  fat : ℤ
  fiber : ℚ
  water : ℚ
deriving DecidableEq, Repr

/-- The `target_calories` computed on profile update (main.py:2104-2113):
`bmr`, then `tdee`, then a ±500 kcal offset selected by the goal
(`else` branch covers `Maintain Weight` and anything else). -/
def target_calories_of (p : UserProfile) : ℚ :=
  let bmr := calculate_bmr p.weight_kg p.height_cm p.age p.gender
  let tdee := calculate_tdee bmr p.activity_level
  if p.goal = "Lose Weight" then tdee - 500
  else if p.goal = "Gain Weight" then tdee + 500
  else tdee

/-- The goal recalculation on profile update (main.py:2104-2124):
`daily_goals.update({'calories': round(target), 'protein': round(target*0.30/4),
'carbs': round(target*0.40/4), 'fat': round(target*0.30/9)})` — a dict
`update`, so `fiber` and `water` keep their previous values. -/
def recalc_goals (p : UserProfile) (g : DailyGoals) : DailyGoals :=
  let target := target_calories_of p
  { g with
    calories := pyRound target
    protein := pyRound (target * (3/10) / 4)
    carbs := pyRound (target * (2/5) / 4)
    fat := pyRound (target * (3/10) / 9) }

/-- A row of `st.session_state.food_diary` (fields written at entry creation,
main.py:1429-1441). -/
structure FoodEntry where
  date : String
  meal : String
  food_name : String
  brand : String
  calories : ℚ
  protein : ℚ
  carbs : ℚ
  fat : ℚ
  fiber : ℚ
  quantity : ℚ
  serving_size : String
deriving DecidableEq, Repr

/-- A row of `st.session_state.exercise_log` (main.py:1480-1486). -/
structure ExerciseEntry where
  date : String
  activity : String
  duration_min : ℚ
  calories_burned : ℤ
  intensity : String
deriving DecidableEq, Repr

/-- A row of `st.session_state.water_log` (main.py:1731-1734). -/
structure WaterEntry where
  date : String
  glasses : ℚ
deriving DecidableEq, Repr

/-- Sidebar quick stats (main.py:784):
`today_food['calories'].sum() if not today_food.empty else 0` where
`today_food` is the diary filtered by string equality on `date`. -/
def calories_consumed (diary : List FoodEntry) (d : String) : ℚ :=
  let today_food := diary.filter (fun e => e.date = d)
  if today_food.isEmpty then 0 else (today_food.map (·.calories)).sum

/-- Sidebar quick stats (main.py:785): summed `calories_burned` of the
exercise log filtered by string equality on `date`. -/
def calories_burned_on (log : List ExerciseEntry) (d : String) : ℚ :=
  let today_exercise := log.filter (fun e => e.date = d)
  if today_exercise.isEmpty then 0 else (today_exercise.map (fun e => (e.calories_burned : ℚ))).sum

/-- Sidebar quick stats (main.py:787): summed `glasses` of the water log
filtered by string equality on `date` (the `'glasses' in columns` guard of the
source is vacuous in this typed model: the column always exists). -/
def water_glasses_on (log : List WaterEntry) (d : String) : ℚ :=
  let today_water := log.filter (fun e => e.date = d)
  if today_water.isEmpty then 0 else (today_water.map (·.glasses)).sum

/-- Sidebar quick stats (main.py:786): `calories_consumed - calories_burned`. -/
def net_calories (diary : List FoodEntry) (log : List ExerciseEntry) (d : String) : ℚ :=
  calories_consumed diary d - calories_burned_on log d

/-- A calendar date as parsed by `pd.to_datetime(...).dt.date`. -/
structure Date where
  year : ℕ
  month : ℕ
  day : ℕ
deriving DecidableEq, Repr

/-- Calendar order on parsed dates (year, then month, then day). -/
def dateLe (a b : Date) : Bool :=
  decide (a.year < b.year ∨ (a.year = b.year ∧
    (a.month < b.month ∨ (a.month = b.month ∧ a.day ≤ b.day))))

/-- Split a character list at every `'-'`. -/
def splitDash : List Char → List (List Char)
  | [] => [[]]
  | c :: rest =>
    let r := splitDash rest
    if c = '-' then [] :: r
    else
      match r with
      | [] => [[c]]
      | h :: t => (c :: h) :: t

/-- Decimal value of a digit string. -/
def digitsVal (cs : List Char) : ℕ :=
  cs.foldl (fun n c => 10 * n + (c.toNat - '0'.toNat)) 0

/-- Numeral parser: `some` exactly on nonempty all-digit strings. -/
def toNatOpt (cs : List Char) : Option ℕ :=
  if cs ≠ [] ∧ cs.all (·.isDigit) then some (digitsVal cs) else none

/-- `pd.to_datetime` applied to this app's date strings: every stored date is
`str(date.today())`, i.e. zero-padded ISO `YYYY-MM-DD`, parsed here by
splitting on `-` into three numeric components (calendar-validity checks,
which pandas additionally performs, never fire on dates the app stores). -/
def parseDate (s : String) : Option Date :=
  match splitDash s.data with
  | [y, m, d] =>
    match toNatOpt y, toNatOpt m, toNatOpt d with
    | some y', some m', some d' => some ⟨y', m', d'⟩
    | _, _, _ => none
  | _ => none

/-- Macro-analysis date-range mask (main.py:1663-1665):
`(pd.to_datetime(date).dt.date >= start_date) & (... <= end_date)`, keeping a
row exactly when its parsed date lies in the inclusive range. -/
def range_filter (diary : List FoodEntry) (start_date end_date : Date) : List FoodEntry :=
  diary.filter (fun e =>
    match parseDate e.date with
    | some d => dateLe start_date d && dateLe d end_date
    | none => false)

/-- The fixed special-character class of `is_strong_password`
(main.py:39): `[!@#$%^&*(),.?":\x7b\x7d|<>]`. -/
def special_chars : List Char :=
  ['!', '@', '#', '$', '%', '^', '&', '*', '(', ')', ',', '.', '?', '"', ':',
   '\x7b', '\x7d', '|', '<', '>']

/-- `is_strong_password` (main.py:29-41): length and four `re.search`
character-class checks, returning `(ok, message)`. -/
def is_strong_password (password : String) : Bool × String :=
  if password.length < 12 then
    (false, "Password must be at least 12 characters")
  else if ¬ password.data.any (fun c => decide ('A' ≤ c ∧ c ≤ 'Z')) then
    (false, "Password must contain uppercase letters")
  else if ¬ password.data.any (fun c => decide ('a' ≤ c ∧ c ≤ 'z')) then
    (false, "Password must contain lowercase letters")
  else if ¬ password.data.any (fun c => decide ('0' ≤ c ∧ c ≤ '9')) then
    (false, "Password must contain numbers")
  else if ¬ password.data.any (fun c => special_chars.contains c) then
    (false, "Password must contain special characters")
  else
    (true, "")

/-- Result record built by a successful sign-up (main.py:198-203 shape). -/
structure SignUpResult where
  id : String
  email : String
  id_token : String
  refresh_token : String
deriving DecidableEq, Repr

/-- `firebase_sign_up` (main.py:211-...): aborts with `None` when the password
is weak, then when the breach check flags it, else proceeds to the external
registration call — modelled by the oracle parameters `breached` (HIBP
lookup) and `register` (the identity-provider POST). -/
def firebase_sign_up (breached : String → Bool)
    (register : String → String → Option SignUpResult)
    (email password : String) : Option SignUpResult :=
  if ¬ (is_strong_password password).1 then none
  else if breached password then none
  else register email password

/-- `firebase_change_password` (main.py:308-...): returns
`(False, "Password too weak: ...")` when the password is weak, a breach
refusal next, else the outcome of the external update call (oracle
`update_call`). -/
def firebase_change_password (breached : String → Bool)
    (update_call : String → Bool × String)
    (new_password : String) : Bool × String :=
  if ¬ (is_strong_password new_password).1 then
    (false, "Password too weak: " ++ (is_strong_password new_password).2)
  else if breached new_password then
    (false, "This password was found in data breaches. Please choose a different one.")
  else update_call new_password

/-! ## Helper lemmas -/

/-- Evaluate `pyRound` when the fractional part is below one half. -/
theorem pyRound_eq_floor (q : ℚ) (n : ℤ) (hfl : ⌊q⌋ = n) (h : q - n < 1/2) :
    pyRound q = n := by
  unfold pyRound
  rw [hfl, if_pos h]

/-- Evaluate `pyRound` when the fractional part is above one half. -/
theorem pyRound_eq_floor_add_one (q : ℚ) (n : ℤ) (hfl : ⌊q⌋ = n) (h : 1/2 < q - n) :
    pyRound q = n + 1 := by
  unfold pyRound
  rw [hfl, if_neg (by linarith), if_pos h]

/-- `pyRound` is within one half of its argument. -/
theorem abs_pyRound_sub_le (q : ℚ) : |(pyRound q : ℚ) - q| ≤ 1/2 := by
  have h0 : (⌊q⌋ : ℚ) ≤ q := Int.floor_le q
  have h1 : q < ⌊q⌋ + 1 := Int.lt_floor_add_one q
  unfold pyRound
  split_ifs <;> rw [abs_le] <;> constructor <;> push_cast <;> linarith

/-- An association-list lookup misses every key absent from the key column. -/
theorem lookup_eq_none_of_not_mem {α β : Type} [BEq α] [LawfulBEq α]
    (l : List (α × β)) (a : α) (h : a ∉ l.map Prod.fst) : l.lookup a = none := by
  induction l with
  | nil => rfl
  | cons hd tl ih =>
    simp only [List.map_cons, List.mem_cons, not_or] at h
    have hne : (a == hd.1) = false := beq_eq_false_iff_ne.mpr h.1
    simp [List.lookup, hne, ih h.2]

/-! ## Theorems -/

/-- C2: `calculate_bmr` implements Mifflin-St Jeor — the male formula exactly
when gender is the string `"Male"`, the −161 variant for every other gender
string; `calculate_bmr 70 175 25 "Male" = 1673.75`. -/
theorem calculate_bmr_spec (w h a : ℚ) (gender : String) :
    (gender = "Male" → calculate_bmr w h a gender = 10*w + (25/4)*h - 5*a + 5) ∧
    (gender ≠ "Male" → calculate_bmr w h a gender = 10*w + (25/4)*h - 5*a - 161) ∧
    calculate_bmr 70 175 25 "Male" = 6695/4 := by
  refine ⟨fun hg => ?_, fun hg => ?_, ?_⟩
  · rw [calculate_bmr, if_pos hg]
  · rw [calculate_bmr, if_neg hg]
  · rw [calculate_bmr, if_pos rfl]; norm_num

/-- Instance of C2's theorem at a non-male gender string. -/
theorem calculate_bmr_spec_witness :
    calculate_bmr 80 180 30 "Female" = 10*80 + (25/4)*180 - 5*30 - 161 :=
  (calculate_bmr_spec 80 180 30 "Female").2.1 (by decide)

/-- C4: `get_bmi_category` classifies by strict-less-than thresholds 18.5, 25
and 30, so each boundary value falls into the higher category;
`get_bmi_category 25 = "Overweight"`. -/
theorem get_bmi_category_spec (bmi : ℚ) :
    (get_bmi_category bmi = "Underweight" ↔ bmi < 37/2) ∧
    (get_bmi_category bmi = "Normal weight" ↔ 37/2 ≤ bmi ∧ bmi < 25) ∧
    (get_bmi_category bmi = "Overweight" ↔ 25 ≤ bmi ∧ bmi < 30) ∧
    (get_bmi_category bmi = "Obese" ↔ 30 ≤ bmi) ∧
    get_bmi_category (37/2) = "Normal weight" ∧
    get_bmi_category 25 = "Overweight" ∧
    get_bmi_category 30 = "Obese" := by
  refine ⟨?_, ?_, ?_, ?_, ?_, ?_, ?_⟩ <;>
    · unfold get_bmi_category
      split_ifs <;> simp_all <;> intros <;> linarith

/-- C5: `calculate_bmi` returns `none` whenever `height_cm ≤ 0` and otherwise
`weight / (height/100)²` with a strictly positive divisor. -/
theorem calculate_bmi_spec (w h : ℚ) :
    (h ≤ 0 → calculate_bmi w h = none) ∧
    (0 < h → calculate_bmi w h = some (w / (h/100)^2) ∧ (0:ℚ) < (h/100)^2) := by
  constructor
  · intro hle
    rw [calculate_bmi, if_pos hle]
  · intro hpos
    refine ⟨by rw [calculate_bmi, if_neg (by linarith)], ?_⟩
    positivity

/-- Instance of C5's theorem at height 0 (undefined) and height 175. -/
theorem calculate_bmi_spec_witness :
    calculate_bmi 70 0 = none ∧ calculate_bmi 70 175 = some (70 / ((175:ℚ)/100)^2) :=
  ⟨(calculate_bmi_spec 70 0).1 le_rfl, ((calculate_bmi_spec 70 175).2 (by norm_num)).1⟩

/-- C1: goal derivation computes bmr (Mifflin-St Jeor), tdee (bmr × activity
multiplier), a ±500 kcal goal offset, and writes the rounded calorie target
and the rounded 30/40/30 macro split; the profile (80 kg, 180 cm, 30 y,
Female, Sedentary, Lose Weight) yields calories 1437, protein 108, carbs 144,
fat 48 whatever the prior goals were. -/
theorem goal_derivation_spec (p : UserProfile) (g : DailyGoals) :
    (let bmr : ℚ := if p.gender = "Male"
        then 10 * p.weight_kg + (25/4) * p.height_cm - 5 * p.age + 5
        else 10 * p.weight_kg + (25/4) * p.height_cm - 5 * p.age - 161
     let tdee : ℚ := bmr * ((activity_multipliers.lookup p.activity_level).getD (6/5))
     let target : ℚ := if p.goal = "Lose Weight" then tdee - 500
        else if p.goal = "Gain Weight" then tdee + 500 else tdee
     (recalc_goals p g).calories = pyRound target ∧
     (recalc_goals p g).protein = pyRound (target * (3/10) / 4) ∧
     (recalc_goals p g).carbs = pyRound (target * (2/5) / 4) ∧
     (recalc_goals p g).fat = pyRound (target * (3/10) / 9)) ∧
    recalc_goals ⟨80, 180, 30, "Female", "Sedentary", "Lose Weight"⟩ g =
      { g with calories := 1437, protein := 108, carbs := 144, fat := 48 } := by
  constructor
  · exact ⟨rfl, rfl, rfl, rfl⟩
  · have ht : target_calories_of ⟨80, 180, 30, "Female", "Sedentary", "Lose Weight"⟩
        = 7184/5 := by
      simp only [target_calories_of, calculate_bmr, calculate_tdee, activity_multipliers,
        List.lookup]
      rw [if_neg (by decide : ¬("Female" : String) = "Male")]
      norm_num
    have h1 : pyRound (7184/5 : ℚ) = 1437 := by
      rw [pyRound_eq_floor_add_one _ 1436 (by norm_num) (by norm_num)]
      decide
    have h2 : pyRound ((7184/5 : ℚ) * (3/10) / 4) = 108 := by
      rw [show ((7184/5 : ℚ) * (3/10) / 4) = 2694/25 by norm_num,
        pyRound_eq_floor_add_one _ 107 (by norm_num) (by norm_num)]
      decide
    have h3 : pyRound ((7184/5 : ℚ) * (2/5) / 4) = 144 := by
      rw [show ((7184/5 : ℚ) * (2/5) / 4) = 3592/25 by norm_num,
        pyRound_eq_floor_add_one _ 143 (by norm_num) (by norm_num)]
      decide
    have h4 : pyRound ((7184/5 : ℚ) * (3/10) / 9) = 48 := by
      rw [show ((7184/5 : ℚ) * (3/10) / 9) = 3592/75 by norm_num,
        pyRound_eq_floor_add_one _ 47 (by norm_num) (by norm_num)]
      decide
    simp only [recalc_goals, ht, h1, h2, h3, h4]

/-- C3: `calculate_calories_burned` rounds `met * weight * duration / 60` with
the MET coefficient looked up in the fixed 18-entry table, defaulting to 3.5
for any unknown activity without error; an unknown activity for 60 min at
70 kg yields 245. -/
theorem calculate_calories_burned_spec (activity : String) (duration_min weight_kg : ℚ) :
    calculate_calories_burned activity duration_min weight_kg =
      pyRound (metOf activity * weight_kg * duration_min / 60) ∧
    (activity ∉ met_values.map Prod.fst → metOf activity = 7/2) ∧
    met_values.length = 18 ∧
    calculate_calories_burned "Unknown" 60 70 = 245 := by
  refine ⟨rfl, fun h => ?_, rfl, ?_⟩
  · rw [metOf, lookup_eq_none_of_not_mem _ _ h]
    rfl
  · have hm : metOf "Unknown" = 7/2 := by
      rw [metOf, lookup_eq_none_of_not_mem _ _ (by decide)]
      rfl
    rw [calculate_calories_burned, hm,
      show ((7:ℚ)/2 * 70 * 60 / 60) = 245 by norm_num]
    rw [pyRound_eq_floor _ 245 (by norm_num) (by norm_num)]

/-- Instance of C3's theorem: the default MET and the 245 kcal example. -/
theorem calculate_calories_burned_spec_witness :
    metOf "Unknown" = 7/2 ∧ calculate_calories_burned "Unknown" 60 70 = 245 :=
  ⟨(calculate_calories_burned_spec "Unknown" 60 70).2.1 (by decide),
   (calculate_calories_burned_spec "Unknown" 60 70).2.2.2⟩

/-- C7: goal derivation is a pure function of the profile: the four derived
fields are independent of the prior goals state, and re-deriving from an
unchanged profile is idempotent (previous manual values are overwritten). -/
theorem goal_derivation_pure (p : UserProfile) (g₁ g₂ : DailyGoals) :
    ((recalc_goals p g₁).calories = (recalc_goals p g₂).calories ∧
     (recalc_goals p g₁).protein = (recalc_goals p g₂).protein ∧
     (recalc_goals p g₁).carbs = (recalc_goals p g₂).carbs ∧
     (recalc_goals p g₁).fat = (recalc_goals p g₂).fat) ∧
    recalc_goals p (recalc_goals p g₁) = recalc_goals p g₁ :=
  ⟨⟨rfl, rfl, rfl, rfl⟩, rfl⟩

/-- C6 counterexample: the profile (113.5 kg, 110 cm, 20 y, Male, Lightly
Active, Lose Weight) has target 30005/16 = 1875.3125 kcal and derived goals
calories 1875, protein 141, carbs 188, fat 63, whose macro energy
141·4 + 188·4 + 63·9 = 1883 kcal differs from the calories goal by 8 kcal,
violating the claimed ≤ 3 kcal tolerance. -/
theorem macro_split_tolerance_counterexample :
    ¬ (let g := recalc_goals ⟨227/2, 110, 20, "Male", "Lightly Active", "Lose Weight"⟩
        ⟨2000, 75, 250, 65, 25, 8⟩
       |g.protein * 4 + g.carbs * 4 + g.fat * 9 - g.calories| ≤ 3) := by
  have ht : target_calories_of ⟨227/2, 110, 20, "Male", "Lightly Active", "Lose Weight"⟩
      = 30005/16 := by
    simp only [target_calories_of, calculate_bmr, calculate_tdee, activity_multipliers,
      List.lookup]
    norm_num [show ("Lightly Active" == "Sedentary") = false from by decide]
  intro habs
  simp only [recalc_goals, ht] at habs
  rw [show ((30005:ℚ)/16 * (3/10) / 4) = 18003/128 by norm_num,
    pyRound_eq_floor_add_one _ 140 (by norm_num) (by norm_num),
    show ((30005:ℚ)/16 * (2/5) / 4) = 6001/32 by norm_num,
    pyRound_eq_floor_add_one _ 187 (by norm_num) (by norm_num),
    show ((30005:ℚ)/16 * (3/10) / 9) = 6001/96 by norm_num,
    pyRound_eq_floor_add_one _ 62 (by norm_num) (by norm_num),
    pyRound_eq_floor (30005/16 : ℚ) 1875 (by norm_num) (by norm_num)] at habs
  exact absurd habs (by decide)

/-- C6 amended: for every profile and prior goals, the derived macro energy
`protein·4 + carbs·4 + fat·9` is within 9 kcal (not 3 kcal) of the derived
calories goal. -/
theorem macro_split_tolerance (p : UserProfile) (g : DailyGoals) :
    |(recalc_goals p g).protein * 4 + (recalc_goals p g).carbs * 4 +
      (recalc_goals p g).fat * 9 - (recalc_goals p g).calories| ≤ 9 := by
  show |pyRound (target_calories_of p * (3/10) / 4) * 4 +
      pyRound (target_calories_of p * (2/5) / 4) * 4 +
      pyRound (target_calories_of p * (3/10) / 9) * 9 -
      pyRound (target_calories_of p)| ≤ 9
  have hp := abs_le.mp (abs_pyRound_sub_le (target_calories_of p * (3/10) / 4))
  have hc := abs_le.mp (abs_pyRound_sub_le (target_calories_of p * (2/5) / 4))
  have hf := abs_le.mp (abs_pyRound_sub_le (target_calories_of p * (3/10) / 9))
  have hk := abs_le.mp (abs_pyRound_sub_le (target_calories_of p))
  rw [← @Int.cast_le ℚ]
  push_cast
  rw [abs_le]
  constructor <;> [linarith; linarith]

/-- C8: when no food, exercise or water entry carries the queried date string,
all three day totals are zero and the net calories evaluate to zero — an
empty filter result is a zero summary, never an error. -/
theorem empty_day_totals (diary : List FoodEntry) (exlog : List ExerciseEntry)
    (wlog : List WaterEntry) (d : String)
    (hf : ∀ e ∈ diary, e.date ≠ d) (he : ∀ e ∈ exlog, e.date ≠ d)
    (hw : ∀ e ∈ wlog, e.date ≠ d) :
    calories_consumed diary d = 0 ∧ calories_burned_on exlog d = 0 ∧
    water_glasses_on wlog d = 0 ∧ net_calories diary exlog d = 0 := by
  have h1 : diary.filter (fun e => e.date = d) = [] :=
    List.filter_eq_nil_iff.mpr (fun a ha => by simpa using hf a ha)
  have h2 : exlog.filter (fun e => e.date = d) = [] :=
    List.filter_eq_nil_iff.mpr (fun a ha => by simpa using he a ha)
  have h3 : wlog.filter (fun e => e.date = d) = [] :=
    List.filter_eq_nil_iff.mpr (fun a ha => by simpa using hw a ha)
  refine ⟨?_, ?_, ?_, ?_⟩ <;>
    simp [calories_consumed, calories_burned_on, water_glasses_on, net_calories, h1, h2, h3]

/-- Instance of C8's theorem: one-entry logs dated the day before the query. -/
theorem empty_day_totals_witness :
    calories_consumed [⟨"2024-03-09", "Lunch", "Rice", "Custom", 200, 4, 44, 1, 0, 1, "100 g"⟩]
        "2024-03-10" = 0 ∧
    calories_burned_on [⟨"2024-03-09", "Swimming", 30, 210, "Moderate"⟩] "2024-03-10" = 0 ∧
    water_glasses_on [⟨"2024-03-09", 3⟩] "2024-03-10" = 0 ∧
    net_calories [⟨"2024-03-09", "Lunch", "Rice", "Custom", 200, 4, 44, 1, 0, 1, "100 g"⟩]
        [⟨"2024-03-09", "Swimming", 30, 210, "Moderate"⟩] "2024-03-10" = 0 :=
  empty_day_totals _ _ _ _ (by decide) (by decide) (by decide)

/-- C9: the date-range mask keeps exactly the log entries whose parsed
calendar date lies between the two bounds, inclusive on both ends — so an
entry dated exactly `end_date` is kept. -/
theorem range_filter_spec (diary : List FoodEntry) (s t : Date) (x : FoodEntry) :
    (x ∈ range_filter diary s t ↔
      x ∈ diary ∧ ∃ d, parseDate x.date = some d ∧ dateLe s d = true ∧ dateLe d t = true) ∧
    range_filter [⟨"2024-03-10", "Lunch", "Rice", "Custom", 200, 4, 44, 1, 0, 1, "100 g"⟩]
        ⟨2024, 3, 1⟩ ⟨2024, 3, 10⟩
      = [⟨"2024-03-10", "Lunch", "Rice", "Custom", 200, 4, 44, 1, 0, 1, "100 g"⟩] := by
  constructor
  · rw [range_filter, List.mem_filter]
    constructor
    · rintro ⟨hmem, hpred⟩
      refine ⟨hmem, ?_⟩
      have hpred' : (match parseDate x.date with
          | some d => dateLe s d && dateLe d t
          | none => false) = true := hpred
      revert hpred'
      cases hpd : parseDate x.date with
      | none => simp
      | some d => exact fun hpred' => ⟨d, rfl, by simpa using hpred'⟩
    · rintro ⟨hmem, d, hpd, hd1, hd2⟩
      refine ⟨hmem, ?_⟩
      show (match parseDate x.date with
          | some d => dateLe s d && dateLe d t
          | none => false) = true
      rw [hpd]
      simp [hd1, hd2]
  · rw [range_filter]
    have hpd : parseDate "2024-03-10" = some ⟨2024, 3, 10⟩ := by decide
    simp only [List.filter_cons, List.filter_nil, hpd]
    rw [if_pos (by decide)]

/-- C10: `is_strong_password` accepts exactly passwords of length ≥ 12 with
an ASCII uppercase letter, a lowercase letter, a digit, and a special
character from the fixed class; whenever it rejects, both sign-up and
password change abort regardless of the breach oracle and the external
call. -/
theorem password_policy_spec (p : String) :
    ((is_strong_password p).1 = true ↔
      (12 ≤ p.length ∧ (∃ c ∈ p.data, 'A' ≤ c ∧ c ≤ 'Z') ∧
       (∃ c ∈ p.data, 'a' ≤ c ∧ c ≤ 'z') ∧ (∃ c ∈ p.data, '0' ≤ c ∧ c ≤ '9') ∧
       (∃ c ∈ p.data, c ∈ special_chars))) ∧
    ((is_strong_password p).1 = false →
      (∀ br reg email, firebase_sign_up br reg email p = none) ∧
      (∀ br upd, (firebase_change_password br upd p).1 = false)) := by
  constructor
  · unfold is_strong_password
    split_ifs with h1 h2 h3 h4 h5 <;>
      simp_all [List.any_eq_true, decide_eq_true_iff, List.elem_iff]
  · intro h
    refine ⟨fun br reg email => ?_, fun br upd => ?_⟩
    · simp [firebase_sign_up, h]
    · simp [firebase_change_password, h]

/-- Instance of C10's theorem: a 14-character password whose only special
characters are `-` and `_` is rejected, and sign-up and password change both
refuse it. -/
theorem password_policy_spec_witness :
    (is_strong_password "Abcdefgh999-_x").1 = false ∧
    firebase_sign_up (fun _ => false) (fun _ _ => none) "user@example.com" "Abcdefgh999-_x"
      = none ∧
    (firebase_change_password (fun _ => false) (fun _ => (true, "")) "Abcdefgh999-_x").1
      = false := by
  have h : (is_strong_password "Abcdefgh999-_x").1 = false := by decide
  exact ⟨h, ((password_policy_spec "Abcdefgh999-_x").2 h).1 _ _ "user@example.com",
    ((password_policy_spec "Abcdefgh999-_x").2 h).2 _ _⟩

end FitTrack
